import Mathlib

/- Shallow embedding of the insider-messaging dispatch engine: the error
   taxonomy, the MessageContent value object, the Message domain entity and
   its state machine, the optimistic-lock store update, the webhook client's
   response classification, the dispatch service batch loop, and the
   scheduler lifecycle. Each definition is translated from the Go source of
   the repository. -/

namespace InsiderMessaging

/-- Error taxonomy codes (Go: pkg errors, type ErrorCode string). -/
def ErrorCodeValidation : String := "VALIDATION_ERROR"

def ErrorCodeNotFound : String := "NOT_FOUND"

def ErrorCodeAlreadyExists : String := "ALREADY_EXISTS"

def ErrorCodeDatabase : String := "DATABASE_ERROR"

def ErrorCodeInternal : String := "INTERNAL_ERROR"

def ErrorCodeTimeout : String := "TIMEOUT"

def ErrorCodeNetworkError : String := "NETWORK_ERROR"

def ErrorCodeInvalidResponse : String := "INVALID_RESPONSE"

def ErrorCodeRateLimit : String := "RATE_LIMIT"

def ErrorCodeServerError : String := "SERVER_ERROR"

/-- Go: pkg errors, AppError struct. The wrapped inner error is modelled by
    its rendered text. -/
structure AppError where
  code : String
  message : String
  err : Option String
deriving DecidableEq, Repr

/-- Go: AppError.Error method, format "code: message[: err]". -/
def AppError.errorText (e : AppError) : String :=
  match e.err with
  | some inner =>
    let c := e.code
    let m := e.message
    s!"{c}: {m}: {inner}"
  | none =>
    let c := e.code
    let m := e.message
    s!"{c}: {m}"

/-- Go: errors.New constructor for AppError. -/
def newAppError (code message : String) : AppError :=
  { code := code, message := message, err := none }

/-- Go: errors.Wrap constructor for AppError. -/
def wrapAppError (code message errText : String) : AppError :=
  { code := code, message := message, err := some errText }

/-- A Go error value: either a typed AppError or some other error rendered
    to its message text (the service type-asserts on this distinction). -/
inductive GoError where
  | app : AppError → GoError
  | plain : String → GoError
deriving DecidableEq, Repr

/-- The Error() text of a Go error value. -/
def GoError.errorText : GoError → String
  | GoError.app e => e.errorText
  | GoError.plain msg => msg

/-- Go: apperrors.NewDatabaseError. -/
def NewDatabaseError (e : GoError) : AppError :=
  wrapAppError ErrorCodeDatabase "database operation failed" e.errorText

/-- Go: apperrors.NewNotFoundError. -/
def NewNotFoundError (message : String) : AppError :=
  newAppError ErrorCodeNotFound message

/-- Go: valueobject.MessageContent — a validated string plus its limit. -/
structure MessageContent where
  value : String
  maxChars : Int
deriving DecidableEq, Repr

/-- The fmt.Errorf text produced when content exceeds the limit; it reports
    both the limit and the actual rune count. -/
def contentTooLongError (maxChars : Int) (charCount : Nat) : String :=
  s!"message content exceeds maximum length of {maxChars} characters (got {charCount})"

/-- Go: valueobject.NewMessageContent. Character count is
    utf8.RuneCountInString, i.e. Unicode code points — String.length in
    Lean. Go int is modelled as Int. -/
def NewMessageContent (content : String) (maxChars : Int) :
    Except String MessageContent :=
  if content = "" then Except.error "message content cannot be empty"
  else
    let charCount := content.length
    if (charCount : Int) > maxChars then
      Except.error (contentTooLongError maxChars charCount)
    else Except.ok { value := content, maxChars := maxChars }

/-- Go: MessageContent.Length — rune count of the value. -/
def MessageContent.Length (m : MessageContent) : Nat := m.value.length

/-- Go: valueobject.MessageStatus — closed enum of four tags. -/
inductive MessageStatus where
  | pending
  | processing
  | sent
  | failed
deriving DecidableEq, Repr

/-- Go: entity.Message. UUIDs are modelled as Nat identifiers and
    timestamps as Nat instants; neither is inspected by the dispatch
    logic. -/
structure Message where
  msgId : Nat
  phoneNumber : String
  content : MessageContent
  status : MessageStatus
  createdAt : Nat
  sentAt : Option Nat
  attempts : Int
  maxAttempts : Int
  lastError : String
  errorCode : String
  webhookMessageID : String
  webhookResponse : String
  version : Int
deriving DecidableEq, Repr

/-- Go: entity.NewMessage. The generated UUID and the creation instant are
    passed in explicitly. -/
def NewMessage (msgId : Nat) (phoneNumber : String) (content : MessageContent)
    (maxAttempts : Int) (createdAt : Nat) : Message :=
  { msgId := msgId
    phoneNumber := phoneNumber
    content := content
    status := MessageStatus.pending
    createdAt := createdAt
    sentAt := none
    attempts := 0
    maxAttempts := maxAttempts
    lastError := ""
    errorCode := ""
    webhookMessageID := ""
    webhookResponse := ""
    version := 1 }

/-- Go: Message.MarkAsProcessing — sets status and increments attempts,
    with no precondition check. -/
def Message.MarkAsProcessing (m : Message) : Message :=
  { m with status := MessageStatus.processing, attempts := m.attempts + 1 }

/-- Go: Message.MarkAsSent — the now instant stands for time.Now().UTC(). -/
def Message.MarkAsSent (m : Message) (webhookMessageID webhookResponse : String)
    (now : Nat) : Message :=
  { m with
    status := MessageStatus.sent
    sentAt := some now
    webhookMessageID := webhookMessageID
    webhookResponse := webhookResponse
    lastError := ""
    errorCode := "" }

/-- Go: Message.MarkAsFailed. -/
def Message.MarkAsFailed (m : Message) (errorMsg errorCode : String) : Message :=
  { m with
    lastError := errorMsg
    errorCode := errorCode
    status :=
      if m.attempts ≥ m.maxAttempts then MessageStatus.failed
      else MessageStatus.pending }

/-- Go: Message.CanRetry. -/
def Message.CanRetry (m : Message) : Bool :=
  m.attempts < m.maxAttempts ∧ m.status ≠ MessageStatus.sent

/-- Go: Message.IncrementVersion — called by the store after a successful
    write. -/
def Message.IncrementVersion (m : Message) : Message :=
  { m with version := m.version + 1 }

/-- The mutation discipline stated by the spec: MarkAsProcessing fires only
    from pending; MarkAsSent and MarkAsFailed fire only from processing. -/
inductive MessageStep : Message → Message → Prop where
  | processing (m : Message) (h : m.status = MessageStatus.pending) :
      MessageStep m m.MarkAsProcessing
  | sent (m : Message) (wid wresp : String) (now : Nat)
      (h : m.status = MessageStatus.processing) :
      MessageStep m (m.MarkAsSent wid wresp now)
  | failed (m : Message) (emsg ecode : String)
      (h : m.status = MessageStatus.processing) :
      MessageStep m (m.MarkAsFailed emsg ecode)

/-- Invariants I2-I5 of the spec. -/
def MessageInvariant (m : Message) : Prop :=
  0 ≤ m.attempts ∧ m.attempts ≤ m.maxAttempts ∧
  (m.status = MessageStatus.failed → m.attempts = m.maxAttempts) ∧
  (m.status = MessageStatus.processing → 1 ≤ m.attempts) ∧
  (m.status = MessageStatus.pending → m.attempts < m.maxAttempts)

theorem messageStep_preserves_invariant {m m' : Message}
    (hm : MessageInvariant m) (h : MessageStep m m') : MessageInvariant m' := by
  obtain ⟨h0, hle, hf, hpr, hpe⟩ := hm
  cases h with
  | processing hst =>
    have hlt := hpe hst
    refine ⟨by simp [Message.MarkAsProcessing]; omega,
            by simp [Message.MarkAsProcessing]; omega,
            by simp [Message.MarkAsProcessing],
            by simp [Message.MarkAsProcessing]; omega,
            by simp [Message.MarkAsProcessing]⟩
  | sent wid wresp now hst =>
    refine ⟨by simpa [Message.MarkAsSent] using h0,
            by simpa [Message.MarkAsSent] using hle,
            by simp [Message.MarkAsSent],
            by simp [Message.MarkAsSent],
            by simp [Message.MarkAsSent]⟩
  | failed emsg ecode hst =>
    have h1 := hpr hst
    by_cases hge : m.attempts ≥ m.maxAttempts
    · refine ⟨by simpa [Message.MarkAsFailed] using h0,
              by simpa [Message.MarkAsFailed] using hle,
              by simp [Message.MarkAsFailed, hge]; omega,
              by simp [Message.MarkAsFailed, hge],
              by simp [Message.MarkAsFailed, hge]⟩
    · refine ⟨by simpa [Message.MarkAsFailed] using h0,
              by simpa [Message.MarkAsFailed] using hle,
              by simp [Message.MarkAsFailed, hge],
              by simp [Message.MarkAsFailed, hge],
              by simp [Message.MarkAsFailed, hge]; omega⟩

/-- C1: every message created by NewMessage with max_attempts ≥ 1 and
    mutated only by MarkAsProcessing from pending and MarkAsSent or
    MarkAsFailed from processing satisfies, after every step:
    0 ≤ attempts ≤ max_attempts; failed ⇒ attempts = max_attempts;
    processing ⇒ attempts ≥ 1; pending ⇒ attempts < max_attempts. -/
theorem message_invariants_reachable (msgId : Nat) (phone : String)
    (c : MessageContent) (maxA : Int) (t : Nat) (hmax : 1 ≤ maxA) (m : Message)
    (h : Relation.ReflTransGen MessageStep (NewMessage msgId phone c maxA t) m) :
    MessageInvariant m := by
  induction h with
  | refl =>
    refine ⟨by simp [NewMessage], by simp [NewMessage]; omega,
            by simp [NewMessage], by simp [NewMessage],
            by simp [NewMessage]; omega⟩
  | tail hs hstep ih => exact messageStep_preserves_invariant ih hstep

theorem message_invariants_reachable_witness :
    MessageInvariant ((NewMessage 0 "+905551234567" ⟨"hi", 160⟩ 3 0).MarkAsProcessing) :=
  message_invariants_reachable 0 "+905551234567" ⟨"hi", 160⟩ 3 0 (by decide) _
    (Relation.ReflTransGen.tail Relation.ReflTransGen.refl
      (MessageStep.processing _ rfl))

/-- C2: for a message in status processing, MarkAsFailed(msg, code) sets
    last_error to msg and error_code to code, leaves attempts unchanged,
    and sets status to failed iff attempts ≥ max_attempts, else pending. -/
theorem markAsFailed_spec (m : Message) (msg code : String)
    (_h : m.status = MessageStatus.processing) :
    (m.MarkAsFailed msg code).lastError = msg ∧
    (m.MarkAsFailed msg code).errorCode = code ∧
    (m.MarkAsFailed msg code).attempts = m.attempts ∧
    (m.maxAttempts ≤ m.attempts →
      (m.MarkAsFailed msg code).status = MessageStatus.failed) ∧
    (m.attempts < m.maxAttempts →
      (m.MarkAsFailed msg code).status = MessageStatus.pending) := by
  refine ⟨rfl, rfl, rfl, ?_, ?_⟩
  · intro hge
    simp [Message.MarkAsFailed]
    omega
  · intro hlt
    simp [Message.MarkAsFailed]
    omega

theorem markAsFailed_spec_witness :
    ((((NewMessage 1 "+905551234567" ⟨"hi", 160⟩ 3 0).MarkAsProcessing).MarkAsFailed
        "boom" "SERVER_ERROR").status = MessageStatus.pending) := by
  have h := markAsFailed_spec
    ((NewMessage 1 "+905551234567" ⟨"hi", 160⟩ 3 0).MarkAsProcessing)
    "boom" "SERVER_ERROR" rfl
  exact h.2.2.2.2 (by decide)

/-- C9: MarkAsProcessing enforces no precondition: from any status it sets
    status to processing and increments attempts by exactly 1, with no
    error; at attempts = max_attempts it yields max_attempts + 1. -/
theorem markAsProcessing_no_precondition (m : Message) :
    (m.MarkAsProcessing).status = MessageStatus.processing ∧
    (m.MarkAsProcessing).attempts = m.attempts + 1 ∧
    (m.attempts = m.maxAttempts →
      (m.MarkAsProcessing).attempts = m.maxAttempts + 1) := by
  refine ⟨rfl, rfl, ?_⟩
  intro heq
  simp [Message.MarkAsProcessing, heq]

theorem markAsProcessing_no_precondition_witness :
    (({ NewMessage 2 "+905551234567" ⟨"hi", 160⟩ 3 0 with
        status := MessageStatus.failed,
        attempts := 3 } : Message).MarkAsProcessing).attempts = 3 + 1 := by
  have h := markAsProcessing_no_precondition
    ({ NewMessage 2 "+905551234567" ⟨"hi", 160⟩ 3 0 with
       status := MessageStatus.failed, attempts := 3 })
  exact h.2.2 rfl

/-- A persisted messages row (the columns of the messages table that the
    UPDATE statement touches, plus the immutable ones it leaves alone). -/
structure MessageRow where
  phoneNumber : String
  content : String
  status : MessageStatus
  createdAt : Nat
  sentAt : Option Nat
  attempts : Int
  maxAttempts : Int
  lastError : String
  errorCode : String
  webhookMessageID : String
  webhookResponse : String
  version : Int
deriving DecidableEq, Repr

/-- Go: messageRepositoryPostgres.Update, modelled for the single row whose
    id matches the message. The SQL sets the mutable columns and
    version = m.version + 1 WHERE id = m.id AND version = m.version; zero
    rows affected yields the NOT_FOUND optimistic-lock error; on success the
    in-memory message's version is incremented. Returns the new stored row,
    the (possibly advanced) in-memory message, and the error. -/
def postgresUpdate (stored : Option MessageRow) (m : Message) :
    Option MessageRow × Message × Option AppError :=
  match stored with
  | none =>
    (none, m,
     some (newAppError ErrorCodeNotFound
       "message not found or version mismatch (optimistic lock)"))
  | some row =>
    if row.version = m.version then
      (some { row with
          status := m.status
          sentAt := m.sentAt
          attempts := m.attempts
          lastError := m.lastError
          errorCode := m.errorCode
          webhookMessageID := m.webhookMessageID
          webhookResponse := m.webhookResponse
          version := m.version + 1 },
       m.IncrementVersion, none)
    else
      (some row, m,
       some (newAppError ErrorCodeNotFound
         "message not found or version mismatch (optimistic lock)"))

/-- C3: the row is written iff the stored version equals m.version; a
    successful write persists version m.version + 1 and advances the
    in-memory version by 1; zero rows affected (mismatch or missing row)
    yields a NOT_FOUND error and leaves the in-memory message unchanged. -/
theorem postgresUpdate_spec (stored : Option MessageRow) (m : Message) :
    (∀ row, stored = some row → row.version = m.version →
      (∃ row', (postgresUpdate stored m).1 = some row' ∧
        row'.version = m.version + 1 ∧
        row'.status = m.status ∧ row'.attempts = m.attempts ∧
        row'.lastError = m.lastError ∧ row'.errorCode = m.errorCode) ∧
      (postgresUpdate stored m).2.1.version = m.version + 1 ∧
      (postgresUpdate stored m).2.2 = none) ∧
    (∀ row, stored = some row → row.version ≠ m.version →
      (postgresUpdate stored m).1 = stored ∧
      (postgresUpdate stored m).2.1 = m ∧
      ∃ e, (postgresUpdate stored m).2.2 = some e ∧
        e.code = ErrorCodeNotFound) ∧
    (stored = none →
      (postgresUpdate stored m).2.1 = m ∧
      ∃ e, (postgresUpdate stored m).2.2 = some e ∧
        e.code = ErrorCodeNotFound) := by
  refine ⟨?_, ?_, ?_⟩
  · rintro row rfl hv
    have hred : postgresUpdate (some row) m =
        (some { row with
            status := m.status
            sentAt := m.sentAt
            attempts := m.attempts
            lastError := m.lastError
            errorCode := m.errorCode
            webhookMessageID := m.webhookMessageID
            webhookResponse := m.webhookResponse
            version := m.version + 1 },
         m.IncrementVersion, none) := by
      simp [postgresUpdate, hv]
    rw [hred]
    exact ⟨⟨_, rfl, rfl, rfl, rfl, rfl, rfl⟩, rfl, rfl⟩
  · rintro row rfl hv
    have hred : postgresUpdate (some row) m =
        (some row, m,
         some (newAppError ErrorCodeNotFound
           "message not found or version mismatch (optimistic lock)")) := by
      simp [postgresUpdate, hv]
    rw [hred]
    exact ⟨rfl, rfl, _, rfl, rfl⟩
  · rintro rfl
    exact ⟨rfl, _, rfl, rfl⟩

theorem postgresUpdate_spec_witness :
    ((postgresUpdate
        (some { phoneNumber := "+905551234567", content := "hi",
                status := MessageStatus.pending, createdAt := 0, sentAt := none,
                attempts := 0, maxAttempts := 3, lastError := "",
                errorCode := "", webhookMessageID := "", webhookResponse := "",
                version := 1 })
        (NewMessage 3 "+905551234567" ⟨"hi", 160⟩ 3 0)).2.1.version = 1 + 1) := by
  have h := (postgresUpdate_spec
    (some { phoneNumber := "+905551234567", content := "hi",
            status := MessageStatus.pending, createdAt := 0, sentAt := none,
            attempts := 0, maxAttempts := 3, lastError := "",
            errorCode := "", webhookMessageID := "", webhookResponse := "",
            version := 1 })
    (NewMessage 3 "+905551234567" ⟨"hi", 160⟩ 3 0)).1 _ rfl rfl
  exact h.2.1

/-- Go: infrastructure/http WebhookResponse. -/
structure WebhookResponse where
  message : String
  messageId : String
deriving DecidableEq, Repr

/-- The response-classification tail of webhookClient.SendMessage, applied
    once the HTTP exchange has completed and the body has been read.
    statusCode is resp.StatusCode, responseBody the raw body text, and
    parsed the outcome of json.Unmarshal into WebhookResponse (none when
    the body is not valid JSON for it). -/
def classifySendResponse (statusCode : Int) (responseBody : String)
    (parsed : Option WebhookResponse) : Except AppError WebhookResponse :=
  if statusCode < 200 ∨ statusCode ≥ 300 then
    if statusCode ≥ 500 then
      Except.error (newAppError ErrorCodeServerError
        s!"webhook server error: {statusCode}")
    else
      Except.error (newAppError ErrorCodeInvalidResponse
        s!"webhook returned status {statusCode}: {responseBody}")
  else
    match parsed with
    | none =>
      Except.error (wrapAppError ErrorCodeInvalidResponse
        "invalid JSON response from webhook" "unmarshal error")
    | some webhookResp =>
      if webhookResp.messageId = "" then
        Except.error (newAppError ErrorCodeInvalidResponse
          "webhook response missing messageId")
      else Except.ok webhookResp

/-- C4: status ≥ 500 yields SERVER_ERROR; a status outside 200-299 and
    below 500 yields INVALID_RESPONSE; a 2xx response whose body is not
    valid JSON or whose messageId is empty yields INVALID_RESPONSE; a 2xx
    response with valid JSON and non-empty messageId is returned with no
    error. -/
theorem classifySendResponse_spec (statusCode : Int) (responseBody : String)
    (parsed : Option WebhookResponse) :
    (statusCode ≥ 500 →
      ∃ e, classifySendResponse statusCode responseBody parsed =
        Except.error e ∧ e.code = ErrorCodeServerError) ∧
    ((statusCode < 200 ∨ statusCode ≥ 300) → statusCode < 500 →
      ∃ e, classifySendResponse statusCode responseBody parsed =
        Except.error e ∧ e.code = ErrorCodeInvalidResponse) ∧
    (200 ≤ statusCode → statusCode < 300 → parsed = none →
      ∃ e, classifySendResponse statusCode responseBody parsed =
        Except.error e ∧ e.code = ErrorCodeInvalidResponse) ∧
    (∀ r, 200 ≤ statusCode → statusCode < 300 → parsed = some r →
      r.messageId = "" →
      ∃ e, classifySendResponse statusCode responseBody parsed =
        Except.error e ∧ e.code = ErrorCodeInvalidResponse) ∧
    (∀ r, 200 ≤ statusCode → statusCode < 300 → parsed = some r →
      r.messageId ≠ "" →
      classifySendResponse statusCode responseBody parsed = Except.ok r) := by
  refine ⟨?_, ?_, ?_, ?_, ?_⟩
  · intro h5
    have hcond : statusCode < 200 ∨ statusCode ≥ 300 := Or.inr (by omega)
    have hred : classifySendResponse statusCode responseBody parsed =
        Except.error (newAppError ErrorCodeServerError
          s!"webhook server error: {statusCode}") := by
      simp [classifySendResponse, hcond, h5]
    rw [hred]
    exact ⟨_, rfl, rfl⟩
  · intro hcond hlt
    have h5 : ¬ statusCode ≥ 500 := by omega
    have hred : classifySendResponse statusCode responseBody parsed =
        Except.error (newAppError ErrorCodeInvalidResponse
          s!"webhook returned status {statusCode}: {responseBody}") := by
      simp [classifySendResponse, hcond, h5]
    rw [hred]
    exact ⟨_, rfl, rfl⟩
  · intro h200 h300 hp
    have hcond : ¬ (statusCode < 200 ∨ statusCode ≥ 300) := by omega
    have hred : classifySendResponse statusCode responseBody parsed =
        Except.error (wrapAppError ErrorCodeInvalidResponse
          "invalid JSON response from webhook" "unmarshal error") := by
      simp [classifySendResponse, hcond, hp]
    rw [hred]
    exact ⟨_, rfl, rfl⟩
  · intro r h200 h300 hp hid
    have hcond : ¬ (statusCode < 200 ∨ statusCode ≥ 300) := by omega
    have hred : classifySendResponse statusCode responseBody parsed =
        Except.error (newAppError ErrorCodeInvalidResponse
          "webhook response missing messageId") := by
      simp [classifySendResponse, hcond, hp, hid]
    rw [hred]
    exact ⟨_, rfl, rfl⟩
  · intro r h200 h300 hp hid
    have hcond : ¬ (statusCode < 200 ∨ statusCode ≥ 300) := by omega
    simp [classifySendResponse, hcond, hp, hid]

theorem classifySendResponse_spec_witness :
    (∃ e, classifySendResponse 503 "oops" none = Except.error e ∧
      e.code = ErrorCodeServerError) ∧
    classifySendResponse 200 "ok"
      (some { message := "Accepted", messageId := "w-1" }) =
      Except.ok { message := "Accepted", messageId := "w-1" } :=
  ⟨(classifySendResponse_spec 503 "oops" none).1 (by decide),
   (classifySendResponse_spec 200 "ok"
      (some { message := "Accepted", messageId := "w-1" })).2.2.2.2
     { message := "Accepted", messageId := "w-1" }
     (by decide) (by decide) rfl (by decide)⟩

/-- Per-message environment for processSingleMessage: the outcomes its
    collaborators return for this message (first Update, webhook send,
    second Update, cache write) and the send instant. -/
structure SingleEnv where
  update1 : Option GoError
  webhook : Except GoError WebhookResponse
  update2 : Option GoError
  cache : Option GoError
  now : Nat
deriving Repr

/-- Observable outcome of processSingleMessage: the final in-memory
    message, the message values handed to repo.Update in order, whether
    CacheSentMessage was invoked, and the returned error. -/
structure SingleResult where
  message : Message
  updates : List Message
  cacheCalled : Bool
  error : Option GoError
deriving DecidableEq, Repr

/-- The taxonomy code the service derives from a webhook error: the
    AppError code when the type assertion to AppError succeeds, else
    INTERNAL_ERROR. -/
def webhookErrorCode : GoError → String
  | GoError.app e => e.code
  | GoError.plain _ => ErrorCodeInternal

/-- Go: messageService.processSingleMessage. A repository Update that
    returns nil advances the in-memory version (IncrementVersion inside the
    repository); the second Update's error after MarkAsFailed is logged and
    swallowed; a cache failure after MarkAsSent is logged and swallowed. -/
def processSingleMessage (env : SingleEnv) (message : Message) : SingleResult :=
  let m1 := message.MarkAsProcessing
  match env.update1 with
  | some e =>
    { message := m1, updates := [m1], cacheCalled := false, error := some e }
  | none =>
    let m1v := m1.IncrementVersion
    match env.webhook with
    | Except.error err =>
      let errorCode := webhookErrorCode err
      let m2 := m1v.MarkAsFailed err.errorText errorCode
      let m2v :=
        match env.update2 with
        | none => m2.IncrementVersion
        | some _ => m2
      let failMsg := err.errorText
      { message := m2v, updates := [m1, m2], cacheCalled := false,
        error := some (GoError.plain s!"webhook send failed: {failMsg}") }
    | Except.ok webhookResp =>
      let wm := webhookResp.message
      let wid := webhookResp.messageId
      let responseJSON := s!"\x7b\"message\": \"{wm}\", \"messageId\": \"{wid}\"\x7d"
      let m2 := m1v.MarkAsSent webhookResp.messageId responseJSON env.now
      match env.update2 with
      | some e =>
        { message := m2, updates := [m1, m2], cacheCalled := false,
          error := some e }
      | none =>
        { message := m2.IncrementVersion, updates := [m1, m2],
          cacheCalled := true, error := none }

/-- Batch environment for ProcessPendingMessages: the BeginTx outcome, the
    FindPendingMessages outcome (each pending message paired with its
    per-message environment), and the Commit outcome. -/
structure BatchEnv where
  beginTx : Option GoError
  findPending : Except GoError (List (Message × SingleEnv))
  commit : Option GoError
deriving Repr

/-- Observable outcome of ProcessPendingMessages. -/
structure BatchResult where
  count : Nat
  error : Option GoError
  committed : Bool
  singles : List SingleResult
deriving DecidableEq, Repr

/-- Go: messageService.ProcessPendingMessages. Per-message failures are
    logged and skipped; successCount counts the messages whose
    processSingleMessage returned nil; a commit failure returns 0 with a
    Database error; zero pending messages return (0, nil) without commit
    (the deferred rollback fires). -/
def ProcessPendingMessages (env : BatchEnv) : BatchResult :=
  match env.beginTx with
  | some e => { count := 0, error := some e, committed := false, singles := [] }
  | none =>
    match env.findPending with
    | Except.error e =>
      { count := 0, error := some e, committed := false, singles := [] }
    | Except.ok messages =>
      if messages.isEmpty then
        { count := 0, error := none, committed := false, singles := [] }
      else
        let results := messages.map (fun p => processSingleMessage p.2 p.1)
        let successCount := results.countP (fun r => r.error.isNone)
        match env.commit with
        | some e =>
          { count := 0, error := some (GoError.app (NewDatabaseError e)),
            committed := false, singles := results }
        | none =>
          { count := successCount, error := none, committed := true,
            singles := results }

/-- C5: in a batch, a webhook failure for one message is recorded on that
    message via MarkAsFailed with the error's taxonomy code (default
    INTERNAL_ERROR) and handed to Update, but does not make
    ProcessPendingMessages fail: the batch still commits with no error and
    the returned count equals the number of successfully sent messages. -/
theorem processPending_webhook_failure_isolated (env : BatchEnv)
    (msgs : List (Message × SingleEnv))
    (hbegin : env.beginTx = none)
    (hfind : env.findPending = Except.ok msgs)
    (hne : msgs ≠ [])
    (hcommit : env.commit = none) :
    (ProcessPendingMessages env).error = none ∧
    (ProcessPendingMessages env).committed = true ∧
    (ProcessPendingMessages env).count =
      msgs.countP (fun p => (processSingleMessage p.2 p.1).error.isNone) ∧
    (∀ p ∈ msgs, ∀ ge, p.2.update1 = none → p.2.webhook = Except.error ge →
      (processSingleMessage p.2 p.1).updates =
        [p.1.MarkAsProcessing,
         ((p.1.MarkAsProcessing).IncrementVersion).MarkAsFailed
           ge.errorText (webhookErrorCode ge)] ∧
      (processSingleMessage p.2 p.1).error ≠ none) := by
  obtain ⟨a, as, rfl⟩ := List.exists_cons_of_ne_nil hne
  refine ⟨?_, ?_, ?_, ?_⟩
  · simp [ProcessPendingMessages, hbegin, hfind, hcommit]
  · simp [ProcessPendingMessages, hbegin, hfind, hcommit]
  · simp [ProcessPendingMessages, hbegin, hfind, hcommit,
      List.countP_cons, List.countP_map, Function.comp]
    rfl
  · intro p hp ge h1 hw
    refine ⟨?_, ?_⟩
    · simp [processSingleMessage, h1, hw]
    · simp [processSingleMessage, h1, hw]

theorem processPending_webhook_failure_isolated_witness :
    (ProcessPendingMessages
      { beginTx := none,
        findPending := Except.ok
          [(NewMessage 4 "+905551234567" ⟨"hi", 160⟩ 3 0,
            { update1 := none,
              webhook := Except.error (GoError.app
                (newAppError ErrorCodeServerError "webhook server error: 500")),
              update2 := none, cache := none, now := 7 })],
        commit := none }).error = none ∧
    (ProcessPendingMessages
      { beginTx := none,
        findPending := Except.ok
          [(NewMessage 4 "+905551234567" ⟨"hi", 160⟩ 3 0,
            { update1 := none,
              webhook := Except.error (GoError.app
                (newAppError ErrorCodeServerError "webhook server error: 500")),
              update2 := none, cache := none, now := 7 })],
        commit := none }).committed = true := by
  have h := processPending_webhook_failure_isolated
    { beginTx := none,
      findPending := Except.ok
        [(NewMessage 4 "+905551234567" ⟨"hi", 160⟩ 3 0,
          { update1 := none,
            webhook := Except.error (GoError.app
              (newAppError ErrorCodeServerError "webhook server error: 500")),
            update2 := none, cache := none, now := 7 })],
      commit := none }
    [(NewMessage 4 "+905551234567" ⟨"hi", 160⟩ 3 0,
      { update1 := none,
        webhook := Except.error (GoError.app
          (newAppError ErrorCodeServerError "webhook server error: 500")),
        update2 := none, cache := none, now := 7 })]
    rfl rfl (List.cons_ne_nil _ _) rfl
  exact ⟨h.1, h.2.1⟩

/-- C6: ProcessPendingMessages returns (0, nil) when findPending yields
    zero messages; when the final commit fails it returns 0 with a
    DATABASE_ERROR, regardless of the successes inside the transaction. -/
theorem processPending_empty_and_commit_failure (env : BatchEnv) :
    (env.beginTx = none → env.findPending = Except.ok [] →
      (ProcessPendingMessages env).count = 0 ∧
      (ProcessPendingMessages env).error = none) ∧
    (∀ msgs ge, env.beginTx = none → env.findPending = Except.ok msgs →
      msgs ≠ [] → env.commit = some ge →
      (ProcessPendingMessages env).count = 0 ∧
      ∃ e, (ProcessPendingMessages env).error = some (GoError.app e) ∧
        e.code = ErrorCodeDatabase) := by
  constructor
  · intro hbegin hfind
    refine ⟨?_, ?_⟩ <;> simp [ProcessPendingMessages, hbegin, hfind]
  · intro msgs ge hbegin hfind hne hcommit
    obtain ⟨a, as, rfl⟩ := List.exists_cons_of_ne_nil hne
    refine ⟨?_, NewDatabaseError ge, ?_, rfl⟩ <;>
      simp [ProcessPendingMessages, hbegin, hfind, hcommit]

theorem processPending_empty_and_commit_failure_witness :
    ((ProcessPendingMessages
        { beginTx := none, findPending := Except.ok [], commit := none }).count = 0 ∧
      (ProcessPendingMessages
        { beginTx := none, findPending := Except.ok [], commit := none }).error = none) ∧
    ((ProcessPendingMessages
        { beginTx := none,
          findPending := Except.ok
            [(NewMessage 5 "+905551234567" ⟨"hi", 160⟩ 3 0,
              { update1 := none,
                webhook := Except.ok { message := "ok", messageId := "w-1" },
                update2 := none, cache := none, now := 9 })],
          commit := some (GoError.plain "broken pipe") }).count = 0) := by
  refine ⟨(processPending_empty_and_commit_failure
    { beginTx := none, findPending := Except.ok [], commit := none }).1 rfl rfl, ?_⟩
  have h := (processPending_empty_and_commit_failure
    { beginTx := none,
      findPending := Except.ok
        [(NewMessage 5 "+905551234567" ⟨"hi", 160⟩ 3 0,
          { update1 := none,
            webhook := Except.ok { message := "ok", messageId := "w-1" },
            update2 := none, cache := none, now := 9 })],
      commit := some (GoError.plain "broken pipe") }).2
    [(NewMessage 5 "+905551234567" ⟨"hi", 160⟩ 3 0,
      { update1 := none,
        webhook := Except.ok { message := "ok", messageId := "w-1" },
        update2 := none, cache := none, now := 9 })]
    (GoError.plain "broken pipe") rfl rfl (List.cons_ne_nil _ _) rfl
  exact h.1

/-- C10: when the webhook send succeeds but the Update recording the sent
    state fails, processSingleMessage returns that error, the message is
    not written to the sent-send cache, and the batch does not count it as
    a success. -/
theorem processSingle_update_failure_after_send (m : Message)
    (senv : SingleEnv) (resp : WebhookResponse) (e : GoError)
    (h1 : senv.update1 = none)
    (hw : senv.webhook = Except.ok resp)
    (h2 : senv.update2 = some e) :
    (processSingleMessage senv m).error = some e ∧
    (processSingleMessage senv m).cacheCalled = false ∧
    (∀ benv : BatchEnv, benv.beginTx = none →
      benv.findPending = Except.ok [(m, senv)] → benv.commit = none →
      (ProcessPendingMessages benv).count = 0 ∧
      (ProcessPendingMessages benv).committed = true) := by
  refine ⟨?_, ?_, ?_⟩
  · simp [processSingleMessage, h1, hw, h2]
  · simp [processSingleMessage, h1, hw, h2]
  · intro benv hb hf hc
    constructor
    · simp [ProcessPendingMessages, hb, hf, hc, processSingleMessage, h1, hw, h2]
    · simp [ProcessPendingMessages, hb, hf, hc]

theorem processSingle_update_failure_after_send_witness :
    (processSingleMessage
      { update1 := none,
        webhook := Except.ok { message := "ok", messageId := "w-9" },
        update2 := some (GoError.app (newAppError ErrorCodeNotFound
          "message not found or version mismatch (optimistic lock)")),
        cache := none, now := 11 }
      (NewMessage 6 "+905551234567" ⟨"hi", 160⟩ 3 0)).cacheCalled = false := by
  have h := processSingle_update_failure_after_send
    (NewMessage 6 "+905551234567" ⟨"hi", 160⟩ 3 0)
    { update1 := none,
      webhook := Except.ok { message := "ok", messageId := "w-9" },
      update2 := some (GoError.app (newAppError ErrorCodeNotFound
        "message not found or version mismatch (optimistic lock)")),
      cache := none, now := 11 }
    { message := "ok", messageId := "w-9" }
    (GoError.app (newAppError ErrorCodeNotFound
      "message not found or version mismatch (optimistic lock)"))
    rfl rfl rfl
  exact h.2.1

/-- Go: scheduler.Scheduler lifecycle state: the mutex-guarded running flag
    and last run instant, and the atomic counters. The channels and the
    spawned run goroutine carry no lifecycle-observable state and are not
    modelled. -/
structure Scheduler where
  isRunning : Bool
  lastRunAt : Nat
  totalProcessed : Int
  totalSuccessful : Int
  totalFailed : Int
deriving DecidableEq, Repr

/-- Go: Scheduler.Start — when already running it logs a warning and
    returns nil leaving the state alone; otherwise it sets the running flag
    and spawns the run loop. -/
def Scheduler.Start (s : Scheduler) : Scheduler × Option GoError :=
  if s.isRunning then (s, none)
  else ({ s with isRunning := true }, none)

/-- Go: Scheduler.Stop — when not running it logs a warning and returns
    nil leaving the state alone; otherwise it signals the stop channel,
    waits for the run loop, and clears the running flag. -/
def Scheduler.Stop (s : Scheduler) : Scheduler × Option GoError :=
  if s.isRunning then ({ s with isRunning := false }, none)
  else (s, none)

/-- C7: Start while running and Stop while stopped are no-ops that return
    success and leave the running flag and the counters unchanged. -/
theorem scheduler_lifecycle_idempotent (s : Scheduler) :
    (s.isRunning = true → Scheduler.Start s = (s, none)) ∧
    (s.isRunning = false → Scheduler.Stop s = (s, none)) := by
  constructor
  · intro h
    simp [Scheduler.Start, h]
  · intro h
    simp [Scheduler.Stop, h]

theorem scheduler_lifecycle_idempotent_witness :
    Scheduler.Start
      { isRunning := true, lastRunAt := 3, totalProcessed := 10,
        totalSuccessful := 8, totalFailed := 2 } =
      ({ isRunning := true, lastRunAt := 3, totalProcessed := 10,
         totalSuccessful := 8, totalFailed := 2 }, none) ∧
    Scheduler.Stop
      { isRunning := false, lastRunAt := 3, totalProcessed := 10,
        totalSuccessful := 8, totalFailed := 2 } =
      ({ isRunning := false, lastRunAt := 3, totalProcessed := 10,
         totalSuccessful := 8, totalFailed := 2 }, none) :=
  ⟨(scheduler_lifecycle_idempotent
      { isRunning := true, lastRunAt := 3, totalProcessed := 10,
        totalSuccessful := 8, totalFailed := 2 }).1 rfl,
   (scheduler_lifecycle_idempotent
      { isRunning := false, lastRunAt := 3, totalProcessed := 10,
        totalSuccessful := 8, totalFailed := 2 }).2 rfl⟩

/-- C8: NewMessageContent succeeds exactly when the string is non-empty
    and its Unicode code point count is at most maxChars; a string over
    the limit is rejected with an error reporting both the limit and the
    actual count; Length of the result is the rune count of the input. -/
theorem newMessageContent_spec (s : String) (maxChars : Int) :
    ((∃ c, NewMessageContent s maxChars = Except.ok c) ↔
      (s ≠ "" ∧ (s.length : Int) ≤ maxChars)) ∧
    (s ≠ "" → (s.length : Int) > maxChars →
      NewMessageContent s maxChars =
        Except.error (contentTooLongError maxChars s.length)) ∧
    (∀ c, NewMessageContent s maxChars = Except.ok c →
      c.Length = s.length) := by
  refine ⟨⟨?_, ?_⟩, ?_, ?_⟩
  · rintro ⟨c, hc⟩
    by_cases hs : s = ""
    · subst hs
      simp [NewMessageContent] at hc
    · by_cases hlen : (s.length : Int) > maxChars
      · simp [NewMessageContent, hs, hlen] at hc
      · exact ⟨hs, by omega⟩
  · rintro ⟨hs, hle⟩
    have hlen : ¬ (s.length : Int) > maxChars := by omega
    exact ⟨{ value := s, maxChars := maxChars },
      by simp [NewMessageContent, hs, hlen]⟩
  · intro hs hlen
    simp [NewMessageContent, hs, hlen]
  · intro c hc
    by_cases hs : s = ""
    · subst hs
      simp [NewMessageContent] at hc
    · by_cases hlen : (s.length : Int) > maxChars
      · simp [NewMessageContent, hs, hlen] at hc
      · simp [NewMessageContent, hs, hlen] at hc
        subst hc
        rfl

theorem newMessageContent_spec_witness :
    (∃ c, NewMessageContent "héllo" 5 = Except.ok c) ∧
    NewMessageContent "中文字" 2 =
      Except.error (contentTooLongError 2 ("中文字".length)) ∧
    ("中文字".length = 3 ∧ "héllo".length = 5 ∧ "héllo".utf8ByteSize = 6) ∧
    MessageContent.Length { value := "héllo", maxChars := 5 } = "héllo".length := by
  refine ⟨?_, ?_, ⟨by decide, by decide, by decide⟩, ?_⟩
  · exact (newMessageContent_spec "héllo" 5).1.2 ⟨by decide, by decide⟩
  · exact (newMessageContent_spec "中文字" 2).2.1 (by decide) (by decide)
  · exact (newMessageContent_spec "héllo" 5).2.2
      { value := "héllo", maxChars := 5 } (by rfl)

end InsiderMessaging
